import Mathlib

/-!
Verification development for the Sam-PPT core pipeline: the result
ranker/deduplicator (`src/image_search.py`) and the content extractor /
scrape orchestrator (`src/web_scraper.py`), shallowly embedded in Lean.

Python strings are modelled as `String`; Python string slicing `s[:n]`,
`s.lower()`, `s.strip()`, `s.startswith`/`s.endswith` are modelled by the
`str_*` helpers below, which operate on the character list.  `urllib.parse.
urlparse` is modelled by `urlparse` following CPython's `urlsplit`
(scheme, then `//netloc`, then fragment, then query; parameter splitting
on `;`, which no input here uses, is omitted).  Absent JSON fields are
modelled by `""` / structure field defaults, matching the source's
`dict.get(key, '')` accesses.  Network effects are modelled by explicit
environments (`SearchEnv`, fetch oracles) and the externally visible
calls by `SearchEvent` traces.
-/

namespace SamPPT

/-- Python `s[:n]` (also `str(x)[:n]`): the first `n` characters. -/
def str_take (s : String) (n : Nat) : String :=
  String.mk (s.data.take n)

/-- Python `s.lower()` (ASCII inputs). -/
def str_lower (s : String) : String :=
  String.mk (s.data.map Char.toLower)

/-- Python `s.strip()` / BeautifulSoup `get_text(strip=True)` on a text node. -/
def str_strip (s : String) : String :=
  String.mk (((s.data.dropWhile Char.isWhitespace).reverse.dropWhile Char.isWhitespace).reverse)

/-- Python `s.startswith(p)`. -/
def str_startswith (s p : String) : Bool :=
  p.data.isPrefixOf s.data

/-- Python `s.endswith(p)`. -/
def str_endswith (s p : String) : Bool :=
  p.data.reverse.isPrefixOf s.data.reverse

/-- Python `needle in hay` (substring containment). -/
def substr_in (needle hay : String) : Bool :=
  hay.data.tails.any (fun t => needle.data.isPrefixOf t)

/-- The result of `urllib.parse.urlparse`: the components used by the source. -/
structure UrlParts where
  scheme : String
  netloc : String
  path : String
  query : String
  fragment : String
deriving DecidableEq

/-- Characters CPython's `urlsplit` allows in a URL scheme. -/
def is_scheme_char (c : Char) : Bool :=
  c.isAlpha || c.isDigit || c = '+' || c = '-' || c = '.'

/-- `urlsplit` scheme detection: the text before the first `:` is a scheme when
it is nonempty, begins with an ASCII letter and is made of scheme characters;
the scheme is lowercased. -/
def split_scheme (cs : List Char) : String × List Char :=
  match cs.findIdx? (fun c => c = ':') with
  | some i =>
    if 0 < i ∧ ((cs.headD ' ').isAlpha && (cs.take i).all is_scheme_char) = true then
      (String.mk ((cs.take i).map Char.toLower), cs.drop (i + 1))
    else ("", cs)
  | none => ("", cs)

/-- Split at the first occurrence of `d` (Python `s.split(d, 1)`); the second
component is empty when `d` is absent. -/
def split_at_first (d : Char) (cs : List Char) : List Char × List Char :=
  match cs.findIdx? (fun c => c = d) with
  | some i => (cs.take i, cs.drop (i + 1))
  | none => (cs, [])

/-- `urlsplit`'s `_splitnetloc`: the netloc runs until the first `/`, `?` or `#`. -/
def split_netloc (cs : List Char) : List Char × List Char :=
  let n := cs.takeWhile (fun c => !(c == '/' || c == '?' || c == '#'))
  (n, cs.drop n.length)

/-- Model of `urllib.parse.urlparse` (via CPython's `urlsplit`). -/
def urlparse (url : String) : UrlParts :=
  let p1 := split_scheme url.data
  let p2 :=
    match p1.2 with
    | '/' :: '/' :: tail => split_netloc tail
    | rest => ([], rest)
  let p3 := split_at_first '#' p2.2
  let p4 := split_at_first '?' p3.1
  { scheme := p1.1, netloc := String.mk p2.1, path := String.mk p4.1,
    query := String.mk p4.2, fragment := String.mk p3.2 }

/-- `domain` local of `_is_valid_result_url`: `urlparse(url).netloc.lower()`. -/
def url_domain (url : String) : String :=
  str_lower (urlparse url).netloc

/-- `path` local of `_is_valid_result_url`: `urlparse(url).path.lower()`. -/
def url_path (url : String) : String :=
  str_lower (urlparse url).path

/-- A ranked search result: `{'title': ..., 'url': ...}`. -/
structure Candidate where
  title : String
  url : String
deriving DecidableEq

/-- `SHOPPING_DOMAINS` from `image_search.py`. -/
def shopping_domains : List String :=
  ["amazon.com", "amazon.in", "amazon.co.uk", "amazon.de",
   "flipkart.com", "myntra.com", "ajio.com",
   "ebay.com", "ebay.in", "ebay.co.uk",
   "walmart.com", "target.com", "bestbuy.com",
   "aliexpress.com", "alibaba.com",
   "snapdeal.com", "paytmmall.com", "tatacliq.com",
   "croma.com", "reliancedigital.in", "vijaysales.com",
   "jiomart.com", "bigbasket.com", "blinkit.com",
   "meesho.com", "indiamart.com", "shopclues.com",
   "etsy.com", "wayfair.com", "overstock.com",
   "homedepot.com", "lowes.com", "ikea.com",
   "costco.com", "samsclub.com", "kohls.com",
   "macys.com", "nordstrom.com", "zappos.com",
   "newegg.com", "bhphotovideo.com"]

/-- `excluded_domains` in `_is_valid_result_url`: search engines. -/
def excluded_domains : List String :=
  ["google.com", "googleapis.com", "gstatic.com",
   "bing.com", "microsoft.com", "msn.com", "live.com",
   "yahoo.com", "yandex.com", "yandex.ru", "baidu.com",
   "duckduckgo.com", "ask.com",
   "tineye.com", "serpapi.com"]

/-- `image_domains` in `_is_valid_result_url`: image hosting / CDN. -/
def image_domains : List String :=
  ["imgur.com", "imgbb.com", "i.imgur.com",
   "flickr.com", "staticflickr.com",
   "cloudinary.com", "res.cloudinary.com",
   "pinimg.com", "pbs.twimg.com",
   "media.tumblr.com", "images.unsplash.com",
   "cdn.shopify.com", "encrypted-tbn",
   "iili.io", "freeimage.host", "0x0.st"]

/-- `social_domains` in `_is_valid_result_url`. -/
def social_domains : List String :=
  ["facebook.com", "instagram.com", "twitter.com",
   "tiktok.com", "pinterest.com", "linkedin.com",
   "reddit.com", "tumblr.com"]

/-- `video_domains` in `_is_valid_result_url`. -/
def video_domains : List String :=
  ["youtube.com", "youtu.be", "vimeo.com"]

/-- `spam_patterns` in `_is_valid_result_url`. -/
def spam_patterns : List String :=
  ["bank", "family.org", "fellowship.org", "church",
   "carbiderelatedtech", "curaresaude", "advogados",
   "school.org", "spec-school", "muhouseware.en.made-in-china"]

/-- `image_extensions` in `_is_valid_result_url`. -/
def image_extensions : List String :=
  [".jpg", ".jpeg", ".png", ".gif", ".webp", ".bmp", ".svg"]

/-- Consume exactly `k` ASCII digits, returning the remainder (`\d{k}`). -/
def take_digits : Nat → List Char → Option (List Char)
  | 0, cs => some cs
  | _ + 1, [] => none
  | k + 1, c :: cs => if c.isDigit then take_digits k cs else none

/-- Match `\d{2,4}x\d{2,4}` at the start of `cs`, then apply `after` to the
remainder (regex backtracking = the existential over 2–4 digit counts). -/
def match_dims_at (after : List Char → Bool) (cs : List Char) : Bool :=
  [2, 3, 4].any fun a =>
    match take_digits a cs with
    | some ('x' :: rest) =>
      [2, 3, 4].any fun b =>
        match take_digits b rest with
        | some rest2 => after rest2
        | none => false
    | _ => false

/-- `re.search`: try the matcher at every position of the string. -/
def search_anywhere (m : List Char → Bool) : List Char → Bool
  | [] => m []
  | c :: rest => m (c :: rest) || search_anywhere m rest

/-- Matcher for `r'\d{2,4}x\d{2,4}'`. -/
def pat_plain : List Char → Bool :=
  match_dims_at (fun _ => true)

/-- Matcher for `r'_\d{2,4}x\d{2,4}'`. -/
def pat_underscore : List Char → Bool
  | '_' :: rest => match_dims_at (fun _ => true) rest
  | _ => false

/-- Matcher for `r'-\d{2,4}x\d{2,4}'`. -/
def pat_hyphen : List Char → Bool
  | '-' :: rest => match_dims_at (fun _ => true) rest
  | _ => false

/-- Matcher for `r'/\d{2,4}x\d{2,4}/'`. -/
def pat_slash : List Char → Bool
  | '/' :: rest =>
    match_dims_at (fun r => match r with | '/' :: _ => true | _ => false) rest
  | _ => false

/-- `_has_image_dimensions`: any of the four dimension regexes matches. -/
def has_image_dimensions (url : String) : Bool :=
  [pat_plain, pat_underscore, pat_hyphen, pat_slash].any fun p =>
    search_anywhere p url.data

/-- `_is_valid_result_url(url, seen_domains)`.  Python's `set[str]` of seen
domains is modelled as a `List String` with exact-string membership, the same
membership test `domain in seen_domains` performs. -/
def is_valid_result_url (url : String) (seen_domains : List String) : Bool :=
  if url = "" ∨ ¬ str_startswith url "http" = true then false
  else if seen_domains.contains (url_domain url) = true then false
  else if excluded_domains.any (fun d => substr_in d (url_domain url)) = true then false
  else if image_domains.any (fun d => substr_in d (url_domain url)) = true then false
  else if social_domains.any (fun d => substr_in d (url_domain url)) = true then false
  else if video_domains.any (fun d => substr_in d (url_domain url)) = true then false
  else if spam_patterns.any (fun d => substr_in d (url_domain url)) = true then false
  else if image_extensions.any (fun ext => str_endswith (url_path url) ext) = true then false
  else if has_image_dimensions url = true then false
  else true

/-- `_is_shopping_domain`. -/
def is_shopping_domain (domain : String) : Bool :=
  shopping_domains.any fun shop => substr_in shop (str_lower domain)

/-- One entry of `shopping_results`; absent fields are `""` (`get(k, '')`). -/
structure ShoppingItem where
  link : String := ""
  source : String := ""
  title : String := ""
  price : String := ""
deriving DecidableEq

/-- The `price` field of a visual match: either a JSON object (whose `value`
key is `""` when absent — also the shape of the default `{}`) or a non-object
value, kept as its `str(...)` rendering with Python-string truthiness. -/
inductive VMPrice where
  | dict (value : String)
  | prim (s : String)
deriving DecidableEq

/-- One entry of `visual_matches`. -/
structure VisualMatch where
  link : String := ""
  title : String := ""
  source : String := ""
  price : VMPrice := .dict ""
deriving DecidableEq

/-- One entry of `knowledge_graph`; `source_link` is `item.get('source', {}).get('link', '')`. -/
structure KGItem where
  link : String := ""
  source_link : String := ""
  title : String := ""
deriving DecidableEq

/-- One entry of `text_results` / `organic_results`. -/
structure TextItem where
  link : String := ""
  title : String := ""
deriving DecidableEq

/-- The parsed SerpAPI Google Lens response.  `knowledge_graph := none` models
a present field that is not a list (the source then skips the tier); a missing
field is `some []`, the `get('knowledge_graph', [])` default. -/
structure LensData where
  shopping_results : List ShoppingItem := []
  visual_matches : List VisualMatch := []
  knowledge_graph : Option (List KGItem) := some []
  text_results : List TextItem := []
  organic_results : List TextItem := []
deriving DecidableEq

/-- `url = item.get('link', '') or item.get('source', '')` for a shopping item. -/
def shopping_item_url (item : ShoppingItem) : String :=
  if item.link ≠ "" then item.link else item.source

/-- Loop body of `_extract_shopping_results`: state is `(results, seen_domains)`.
Note the source adds `urlparse(url).netloc` to `seen_domains` un-lowercased. -/
def extract_shopping_step (st : List Candidate × List String) (item : ShoppingItem) :
    List Candidate × List String :=
  let url := shopping_item_url item
  if url ≠ "" ∧ is_valid_result_url url st.2 = true then
    let domain := (urlparse url).netloc
    let display_title :=
      if item.price ≠ "" then item.title ++ " - " ++ item.price
      else if item.title ≠ "" then item.title
      else domain
    (st.1 ++ [⟨display_title, url⟩], domain :: st.2)
  else st

/-- `_extract_shopping_results`. -/
def extract_shopping_results (data : LensData) (st : List Candidate × List String) :
    List Candidate × List String :=
  data.shopping_results.foldl extract_shopping_step st

/-- The `price_str` extraction inside `_extract_visual_matches`. -/
def vm_price_str : VMPrice → String
  | .dict v => v
  | .prim s => s

/-- Loop body of `_extract_visual_matches`: state is
`(shopping_results, other_results, seen_domains)`.  Here the source lowercases
the domain before adding it to `seen_domains`. -/
def extract_visual_step (st : List Candidate × List Candidate × List String)
    (m : VisualMatch) : List Candidate × List Candidate × List String :=
  let url := m.link
  let title := if m.title ≠ "" then m.title else m.source
  let price_str := vm_price_str m.price
  if url = "" ∨ ¬ is_valid_result_url url st.2.2 = true then st
  else
    let domain := str_lower (urlparse url).netloc
    let display_title :=
      if price_str ≠ "" then title ++ " - " ++ price_str
      else if title ≠ "" then title
      else domain
    if is_shopping_domain domain = true then
      (st.1 ++ [⟨display_title, url⟩], st.2.1, domain :: st.2.2)
    else
      (st.1, st.2.1 ++ [⟨display_title, url⟩], domain :: st.2.2)

/-- `_extract_visual_matches`. -/
def extract_visual_matches (data : LensData)
    (st : List Candidate × List Candidate × List String) :
    List Candidate × List Candidate × List String :=
  data.visual_matches.foldl extract_visual_step st

/-- `_add_result_if_valid`; like the shopping tier it adds the un-lowercased
netloc to `seen_domains`. -/
def add_result_if_valid (url title : String) (st : List Candidate × List String) :
    List Candidate × List String :=
  if url ≠ "" ∧ is_valid_result_url url st.2 = true then
    let domain := (urlparse url).netloc
    let display_title := if title ≠ "" then title else domain
    (st.1 ++ [⟨display_title, url⟩], domain :: st.2)
  else st

/-- Loop of `_extract_knowledge_graph`, with its `len(results) >= num_results`
early return. -/
def extract_kg_loop (num : Nat) : List KGItem → List Candidate × List String →
    List Candidate × List String
  | [], st => st
  | item :: rest, st =>
    if num ≤ st.1.length then st
    else
      extract_kg_loop num rest
        (add_result_if_valid (if item.link ≠ "" then item.link else item.source_link)
          item.title st)

/-- `_extract_knowledge_graph` (skips a non-list `knowledge_graph`). -/
def extract_knowledge_graph (data : LensData) (num : Nat)
    (st : List Candidate × List String) : List Candidate × List String :=
  match data.knowledge_graph with
  | none => st
  | some items => extract_kg_loop num items st

/-- Loop of `_extract_text_results`, with its early return. -/
def extract_text_loop (num : Nat) : List TextItem → List Candidate × List String →
    List Candidate × List String
  | [], st => st
  | item :: rest, st =>
    if num ≤ st.1.length then st
    else extract_text_loop num rest (add_result_if_valid item.link item.title st)

/-- `_extract_text_results`: `text_results or organic_results`. -/
def extract_text_results (data : LensData) (num : Nat)
    (st : List Candidate × List String) : List Candidate × List String :=
  let items := if data.text_results ≠ [] then data.text_results else data.organic_results
  extract_text_loop num items st

/-- `_parse_serpapi_lens_results(data, num_results)`: the four tiers, then
`(shopping_results + other_results)[:num_results]`. -/
def parse_serpapi_lens_results (data : LensData) (num_results : Nat) : List Candidate :=
  let s0 := extract_shopping_results data ([], [])
  let v := extract_visual_matches data (s0.1, [], s0.2)
  let k := extract_knowledge_graph data num_results (v.2.1, v.2.2)
  let t := extract_text_results data num_results k
  (v.1 ++ t.1).take num_results

/-- One entry of `image_results` in the reverse-image response. -/
structure RevItem where
  link : String := ""
  source : String := ""
  title : String := ""
  snippet : String := ""
deriving DecidableEq

/-- One entry of `inline_images`. -/
structure InlineItem where
  source : String := ""
  link : String := ""
  title : String := ""
deriving DecidableEq

/-- The parsed SerpAPI reverse-image response. -/
structure RevData where
  image_results : List RevItem := []
  inline_images : List InlineItem := []
deriving DecidableEq

/-- Loop of `_extract_image_results`. -/
def extract_image_results_loop (num : Nat) : List RevItem →
    List Candidate × List String → List Candidate × List String
  | [], st => st
  | item :: rest, st =>
    if num ≤ st.1.length then st
    else
      extract_image_results_loop num rest
        (add_result_if_valid (if item.link ≠ "" then item.link else item.source)
          (if item.title ≠ "" then item.title else item.snippet) st)

/-- Loop of `_extract_inline_images`. -/
def extract_inline_images_loop (num : Nat) : List InlineItem →
    List Candidate × List String → List Candidate × List String
  | [], st => st
  | item :: rest, st =>
    if num ≤ st.1.length then st
    else
      extract_inline_images_loop num rest
        (add_result_if_valid (if item.source ≠ "" then item.source else item.link)
          item.title st)

/-- `_parse_serpapi_reverse_results`. -/
def parse_serpapi_reverse_results (data : RevData) (num : Nat) : List Candidate :=
  let s1 := extract_image_results_loop num data.image_results ([], [])
  let s2 := extract_inline_images_loop num data.inline_images s1
  s2.1

/-- Externally visible calls made by a search, in order. -/
inductive SearchEvent where
  | upload
  | lens_call
  | reverse_call
deriving DecidableEq

/-- The external world of one `search_by_image` run: the outcome of the
`_upload_image` hosting step (`none` = upload failed / returned no URL) and
the provider's two possible HTTP responses (`none` = non-200 status,
malformed JSON or a network exception, each caught at its call site). -/
structure SearchEnv where
  upload_result : Option String := none
  lens_response : Option LensData := none
  reverse_response : Option RevData := none

/-- `_search_serpapi_lens`: upload first; a failed upload returns `[]` without
contacting the provider, and provider errors degrade to `[]`. -/
def search_serpapi_lens (env : SearchEnv) (num : Nat) :
    List Candidate × List SearchEvent :=
  match env.upload_result with
  | none => ([], [.upload])
  | some _ =>
    match env.lens_response with
    | some data => (parse_serpapi_lens_results data num, [.upload, .lens_call])
    | none => ([], [.upload, .lens_call])

/-- `_search_serpapi_reverse`. -/
def search_serpapi_reverse (env : SearchEnv) (num : Nat) :
    List Candidate × List SearchEvent :=
  match env.upload_result with
  | none => ([], [.upload])
  | some _ =>
    match env.reverse_response with
    | some data => (parse_serpapi_reverse_results data num, [.upload, .reverse_call])
    | none => ([], [.upload, .reverse_call])

/-- `search_by_image(image_path, num_results)`: empty API key short-circuits to
`[]`; otherwise Lens first (asking for `num_results * 2`, then re-ordering
shopping-domain hits to the front), falling back to reverse image search. -/
def search_by_image (api_key : String) (env : SearchEnv) (num_results : Nat) :
    List Candidate × List SearchEvent :=
  if api_key = "" then ([], [])
  else
    let lens := search_serpapi_lens env (num_results * 2)
    if lens.1 ≠ [] then
      let shopping := lens.1.filter fun r => is_shopping_domain (urlparse r.url).netloc
      let others := lens.1.filter fun r => !is_shopping_domain (urlparse r.url).netloc
      ((shopping ++ others).take num_results, lens.2)
    else
      let rev := search_serpapi_reverse env num_results
      (rev.1.take num_results, lens.2 ++ rev.2)

/-- Tags of the elements `web_scraper.py` inspects. -/
inductive HTag where
  | h1
  | h2
  | h3
  | p
  | article
  | main
  | div
  | other
deriving DecidableEq

/-- One element of the parsed page, after the source has decomposed
`script`/`style`/`nav`/`footer`/`header`/`aside`/`noscript`.  `text` is the
element's raw text content; `get_text(strip=True)` is modelled as
`str_strip text`. -/
structure HElement where
  tag : HTag
  class_attr : String := ""
  text : String := ""
deriving DecidableEq

/-- The parsed page (`BeautifulSoup` object) as the source consumes it:
the `<title>` text if present, the `name=description` meta tag
(`none` = no tag, `some none` = tag without a `content` attribute),
the inspected elements in document order, and the `<body>` fallback text. -/
structure HtmlDoc where
  title_tag : Option String := none
  meta_description : Option (Option String) := none
  elements : List HElement := []
  body_text : String := ""
deriving DecidableEq

/-- `soup.find_all(tag)`: the elements with that tag, in document order. -/
def find_all (doc : HtmlDoc) (t : HTag) : List HElement :=
  doc.elements.filter fun e => e.tag == t

/-- `_extract_title`: `<title>` text stripped, else the URL's netloc. -/
def extract_title (doc : HtmlDoc) (url : String) : String :=
  match doc.title_tag with
  | some t => str_strip t
  | none => (urlparse url).netloc

/-- `_extract_meta_description`: `content` of the description meta tag,
truncated to 500 characters; left empty when the tag or attribute is absent
or the content is empty (falsy). -/
def extract_meta_description (doc : HtmlDoc) : String :=
  match doc.meta_description with
  | some (some content) => if content ≠ "" then str_take content 500 else ""
  | _ => ""

/-- Inner loop of `_extract_headings`: strip, keep when nonempty and longer
than 3 characters, truncate to 200. -/
def heading_texts (es : List HElement) : List String :=
  es.filterMap fun h =>
    let text := str_strip h.text
    if text ≠ "" ∧ text.length > 3 then some (str_take text 200) else none

/-- `_extract_headings`: the first 10 `h1`s, then the first 10 `h2`s, then the
first 10 `h3`s, each filtered and truncated, then capped at 15 overall. -/
def extract_headings (doc : HtmlDoc) : List String :=
  (heading_texts ((find_all doc .h1).take 10) ++
   heading_texts ((find_all doc .h2).take 10) ++
   heading_texts ((find_all doc .h3).take 10)).take 15

/-- `re.sub(r'\s+', ' ', s)`: collapse every whitespace run to one space. -/
def collapse_ws : List Char → List Char
  | [] => []
  | [c] => if c.isWhitespace then [' '] else [c]
  | c1 :: c2 :: rest =>
    if c1.isWhitespace then
      if c2.isWhitespace then collapse_ws (c2 :: rest)
      else ' ' :: collapse_ws (c2 :: rest)
    else c1 :: collapse_ws (c2 :: rest)

/-- `_extract_paragraphs`: strip, keep when longer than 50 characters,
whitespace-collapse, truncate to 500, keep the first 20. -/
def extract_paragraphs (doc : HtmlDoc) : List String :=
  ((find_all doc .p).filterMap fun p =>
    let text := str_strip p.text
    if text ≠ "" ∧ text.length > 50 then
      some (str_take (String.mk (collapse_ws text.data)) 500)
    else none).take 20

/-- `re.sub(' +', ' ', s)`: collapse space runs to one space. -/
def collapse_spaces : List Char → List Char
  | [] => []
  | [c] => [c]
  | c1 :: c2 :: rest =>
    if c1 = ' ' ∧ c2 = ' ' then collapse_spaces (c2 :: rest)
    else c1 :: collapse_spaces (c2 :: rest)

/-- One maximal whitespace run under `re.sub(r'\n\s*\n', '\n\n', s)`: a run
holding at least two newlines is rewritten to the part before its first
newline, a blank line, and the part after its last newline. -/
def collapse_run (run : List Char) : List Char :=
  if 2 ≤ (run.filter (fun c => c == '\n')).length then
    run.takeWhile (fun c => !(c == '\n')) ++
      '\n' :: '\n' :: (run.reverse.takeWhile (fun c => !(c == '\n'))).reverse
  else run

/-- Scanner for `re.sub(r'\n\s*\n', '\n\n', s)`: `acc` is the current
whitespace run, collected in reverse. -/
def collapse_blank_go (acc : List Char) : List Char → List Char
  | [] => collapse_run acc.reverse
  | c :: rest =>
    if c.isWhitespace then collapse_blank_go (c :: acc) rest
    else collapse_run acc.reverse ++ c :: collapse_blank_go [] rest

/-- `re.sub(r'\n\s*\n', '\n\n', s)`. -/
def collapse_blank_lines (cs : List Char) : List Char :=
  collapse_blank_go [] cs

/-- The class filter `re.compile(r'content|article|post|body', re.I)` used as
a BeautifulSoup `class_` argument: the regex searches the class string. -/
def class_matches_content (s : String) : Bool :=
  ["content", "article", "post", "body"].any fun w => substr_in w (str_lower s)

/-- `_extract_main_content`: the first `article`/`main`/`div` with a matching
class, else the `<body>` text; blank lines and space runs collapsed, truncated
to 5000. -/
def extract_main_content (doc : HtmlDoc) : String :=
  let main_elements := doc.elements.filter fun e =>
    (e.tag == .article || e.tag == .main || e.tag == .div) &&
      class_matches_content e.class_attr
  let main_text :=
    match main_elements with
    | e :: _ => e.text
    | [] => doc.body_text
  str_take (String.mk (collapse_spaces (collapse_blank_lines main_text.data))) 5000

/-- Outcome of `requests.get` + parsing for one URL: a parsed page, or one of
the three exception classes `_extract_content` catches. -/
inductive FetchOutcome where
  | ok (doc : HtmlDoc)
  | timeout
  | request_error (msg : String)
  | other_error (msg : String)
deriving DecidableEq

/-- The `result` dict of `_extract_content`, with its initial defaults. -/
structure ContentResult where
  title : String := ""
  main_content : String := ""
  headings : List String := []
  paragraphs : List String := []
  meta_description : String := ""
  error : Option String := none
deriving DecidableEq

/-- `_extract_content(url)`: on a successful fetch every field is extracted;
each caught exception leaves the defaults and sets only `error`.  `fetch` is
the network oracle assigning each URL its fetch outcome. -/
def extract_content (fetch : String → FetchOutcome) (url : String) : ContentResult :=
  match fetch url with
  | .ok doc =>
    { title := extract_title doc url
      main_content := extract_main_content doc
      headings := extract_headings doc
      paragraphs := extract_paragraphs doc
      meta_description := extract_meta_description doc
      error := none }
  | .timeout => { error := some "Request timed out" }
  | .request_error msg => { error := some ("Request error: " ++ str_take msg 100) }
  | .other_error msg => { error := some ("Error: " ++ str_take msg 100) }

/-- The `WebPageData` dataclass. -/
structure WebPageData where
  url : String
  title : String
  screenshot_path : Option String := none
  main_content : String := ""
  headings : List String := []
  paragraphs : List String := []
  meta_description : String := ""
  error : Option String := none
deriving DecidableEq

/-- `scrape_page(url, take_screenshot)`.  `shot` is the screenshot oracle:
`_take_screenshot` returns a path or, on any failure, `None`, never raising.
The dict lookup `content_data.get('title', 'Unknown Title')` always finds the
key, since `_extract_content` initialises it. -/
def scrape_page (fetch : String → FetchOutcome) (shot : String → Option String)
    (url : String) (take_screenshot : Bool) : WebPageData :=
  let c := extract_content fetch url
  { url := url
    title := c.title
    screenshot_path := if take_screenshot then shot url else none
    main_content := c.main_content
    headings := c.headings
    paragraphs := c.paragraphs
    meta_description := c.meta_description
    error := c.error }

/-- `scrape_multiple(urls, take_screenshots)`: the sequential loop appending
`scrape_page(url)` for each URL in order. -/
def scrape_multiple (fetch : String → FetchOutcome) (shot : String → Option String)
    (urls : List String) (take_screenshots : Bool) : List WebPageData :=
  urls.map fun u => scrape_page fetch shot u take_screenshots

/-- A raw response whose two shopping items live on the same host, spelled
with different letter case. -/
def mixed_case_data : LensData :=
  { shopping_results := [{link := "https://Amazon.com/x", title := "A"},
                         {link := "https://amazon.com/y", title := "B"}] }

/-- The spec's worked shopping example. -/
def widget_data : LensData :=
  { shopping_results := [{link := "https://amazon.com/x", title := "Widget", price := "$9"}] }

/-- A fetch oracle where exactly the URL `"b"` times out. -/
def fetch_b_timeout : String → FetchOutcome :=
  fun u => if u = "b" then .timeout else .ok {}

/-- A fetch oracle where every fetch times out. -/
def fetch_timeout : String → FetchOutcome := fun _ => .timeout

/-- A fetch oracle where every fetch raises a `RequestException`. -/
def fetch_reqerr : String → FetchOutcome := fun _ => .request_error "boom"

/-- A fetch oracle where every fetch raises some other exception. -/
def fetch_othererr : String → FetchOutcome := fun _ => .other_error "bad"

/-- A page whose `h2` precedes its `h1` in document order. -/
def h2_first_doc : HtmlDoc :=
  { elements := [⟨.h2, "", "Second one"⟩, ⟨.h1, "", "First one"⟩] }

/-- A page with a single `h1`. -/
def hello_doc : HtmlDoc :=
  { elements := [⟨.h1, "", "Hello World"⟩] }

/-- The headings sequence the claim's words describe: trimmed texts of the
`h1`/`h2`/`h3` elements in document order (level caps not yet applied; used
only to exhibit the document-order disagreement). -/
def headings_in_document_order (doc : HtmlDoc) : List String :=
  doc.elements.filterMap fun e =>
    if (e.tag = HTag.h1 ∨ e.tag = HTag.h2 ∨ e.tag = HTag.h3) ∧
        str_strip e.text ≠ "" ∧ (str_strip e.text).length > 3 then
      some (str_take (str_strip e.text) 200)
    else none

/-- Facts every URL accepted by `_is_valid_result_url` satisfies: it starts
with `"http"`, its lowercased path ends in no raw image extension, and it
contains no pixel-dimension pattern. -/
theorem is_valid_true_facts (url : String) (seen : List String)
    (h : is_valid_result_url url seen = true) :
    str_startswith url "http" = true ∧
    (image_extensions.any fun ext => str_endswith (url_path url) ext) = false ∧
    has_image_dimensions url = false := by
  unfold is_valid_result_url at h
  split_ifs at h with c1 c2 c3 c4 c5 c6 c7 c8 c9
  all_goals simp_all

/-- `re.search` succeeds on `xs ++ ys` whenever it succeeds on `ys`. -/
theorem search_anywhere_append (m : List Char → Bool) (xs ys : List Char)
    (h : search_anywhere m ys = true) : search_anywhere m (xs ++ ys) = true := by
  induction xs with
  | nil => simpa using h
  | cons c cs ih =>
    have hstep : search_anywhere m ((c :: cs) ++ ys)
        = (m ((c :: cs) ++ ys) || search_anywhere m (cs ++ ys)) := rfl
    rw [hstep, ih, Bool.or_true]

/-- `\d{2,4}x\d{2,4}` matches at an `800x600` occurrence. -/
theorem pat_plain_800x600 (b : List Char) :
    pat_plain ('8' :: '0' :: '0' :: 'x' :: '6' :: '0' :: '0' :: '/' :: b) = true := rfl

/-- Any URL containing `/800x600/` has image dimensions. -/
theorem has_dims_of_800x600 (url : String) (a b : List Char)
    (h : url.data = a ++ ('/' :: '8' :: '0' :: '0' :: 'x' :: '6' :: '0' :: '0' :: '/' :: b)) :
    has_image_dimensions url = true := by
  have h1 : search_anywhere pat_plain url.data = true := by
    rw [h]
    have h2 : ('/' :: '8' :: '0' :: '0' :: 'x' :: '6' :: '0' :: '0' :: '/' :: b)
        = ['/'] ++ ('8' :: '0' :: '0' :: 'x' :: '6' :: '0' :: '0' :: '/' :: b) := rfl
    rw [h2, ← List.append_assoc]
    apply search_anywhere_append
    simp only [search_anywhere, pat_plain_800x600, Bool.true_or]
  simp [has_image_dimensions, h1]

/-- C5: for every URL and every `seenHosts` state, a URL whose (lowercased)
path ends in `.jpg`, or which contains the substring `/800x600/`, is rejected
by the admission filter `_is_valid_result_url`, regardless of anything else. -/
theorem image_and_dimension_urls_rejected (url : String) (seen : List String) :
    (str_endswith (url_path url) ".jpg" = true → is_valid_result_url url seen = false) ∧
    ((∃ a b : List Char, url.data = a ++ "/800x600/".data ++ b) →
      is_valid_result_url url seen = false) := by
  constructor
  · intro hjpg
    cases hv : is_valid_result_url url seen with
    | false => rfl
    | true =>
      have hfacts := is_valid_true_facts url seen hv
      have hany : (image_extensions.any fun ext => str_endswith (url_path url) ext) = true := by
        simp [image_extensions, hjpg]
      rw [hfacts.2.1] at hany
      exact Bool.noConfusion hany
  · rintro ⟨a, b, hab⟩
    cases hv : is_valid_result_url url seen with
    | false => rfl
    | true =>
      have hfacts := is_valid_true_facts url seen hv
      have hdims := has_dims_of_800x600 url a b (by simpa using hab)
      rw [hfacts.2.2] at hdims
      exact Bool.noConfusion hdims

/-- Witness for C5 at concrete inputs. -/
theorem image_and_dimension_urls_rejected_witness :
    str_endswith (url_path "https://example.com/photo.JPG") ".jpg" = true ∧
    is_valid_result_url "https://example.com/photo.JPG" ["x"] = false ∧
    "https://cdn.example.com/800x600/item".data =
      "https://cdn.example.com".data ++ "/800x600/".data ++ "item".data ∧
    is_valid_result_url "https://cdn.example.com/800x600/item" [] = false := by
  refine ⟨by decide, ?_, by decide, ?_⟩
  · exact (image_and_dimension_urls_rejected "https://example.com/photo.JPG" ["x"]).1 (by decide)
  · exact (image_and_dimension_urls_rejected "https://cdn.example.com/800x600/item" []).2
      ⟨"https://cdn.example.com".data, "item".data, by decide⟩

/-- C6 (amended): every URL accepted by the admission filter starts with the
character sequence `http` — the source checks `url.startswith('http')`, not
that the parsed scheme is exactly `http` or `https`. -/
theorem accepted_url_starts_with_http (url : String) (seen : List String)
    (h : is_valid_result_url url seen = true) : str_startswith url "http" = true :=
  (is_valid_true_facts url seen h).1

/-- C6 counterexample: a URL whose scheme is `httpx` (neither `http` nor
`https`) passes the admission filter, because only the prefix is checked. -/
theorem scheme_check_counterexample :
    is_valid_result_url "httpx://example.org/page" [] = true ∧
    (urlparse "httpx://example.org/page").scheme = "httpx" := by decide

/-- Witness for the amended C6. -/
theorem accepted_url_starts_with_http_witness :
    is_valid_result_url "https://example.org/page" [] = true ∧
    str_startswith "https://example.org/page" "http" = true :=
  ⟨by decide, accepted_url_starts_with_http "https://example.org/page" [] (by decide)⟩

/-- C1 (bug evidence): the shopping tier records the un-lowercased netloc in
`seen_domains` but the filter tests the lowercased netloc, so two candidates
whose hosts are `Amazon.com` and `amazon.com` — equal case-insensitively —
both survive ranking. -/
theorem rank_host_dedup_case_bug :
    parse_serpapi_lens_results mixed_case_data 5 =
      [⟨"A", "https://Amazon.com/x"⟩, ⟨"B", "https://amazon.com/y"⟩] ∧
    url_domain "https://Amazon.com/x" = "amazon.com" ∧
    url_domain "https://amazon.com/y" = "amazon.com" := by decide

/-- C2: the spec's worked example evaluates as stated, and in general an
accepted shopping-tier item is titled `"<name> - <price>"` when its price is
nonempty, else its own title, else the host. -/
theorem shopping_example_and_title_synthesis :
    parse_serpapi_lens_results widget_data 3 = [⟨"Widget - $9", "https://amazon.com/x"⟩] ∧
    ∀ (item : ShoppingItem) (st : List Candidate × List String),
      shopping_item_url item ≠ "" →
      is_valid_result_url (shopping_item_url item) st.2 = true →
      (extract_shopping_step st item).1 =
        st.1 ++ [⟨if item.price ≠ "" then item.title ++ " - " ++ item.price
                  else if item.title ≠ "" then item.title
                  else (urlparse (shopping_item_url item)).netloc,
                  shopping_item_url item⟩] := by
  refine ⟨by decide, ?_⟩
  intro item st h1 h2
  simp [extract_shopping_step, h1, h2]

/-- Witness for C2's general synthesis rule: a priceless item keeps its own
title. -/
theorem shopping_title_synthesis_witness :
    shopping_item_url ⟨"https://ebay.com/i", "", "Gadget", ""⟩ ≠ "" ∧
    is_valid_result_url "https://ebay.com/i" [] = true ∧
    (extract_shopping_step ([], []) ⟨"https://ebay.com/i", "", "Gadget", ""⟩).1 =
      [⟨"Gadget", "https://ebay.com/i"⟩] := by
  refine ⟨by decide, by decide, ?_⟩
  have h := shopping_example_and_title_synthesis.2 ⟨"https://ebay.com/i", "", "Gadget", ""⟩
    ([], []) (by decide) (by decide)
  rw [h]
  decide

/-- C8: when the hosting upload returns no URL, `_search_serpapi_lens` returns
the empty list (after only the upload attempt), instead of raising. -/
theorem lens_search_empty_on_upload_failure (env : SearchEnv) (num : Nat)
    (h : env.upload_result = none) :
    search_serpapi_lens env num = ([], [SearchEvent.upload]) := by
  simp [search_serpapi_lens, h]

/-- Witness for C8. -/
theorem lens_search_empty_on_upload_failure_witness :
    ({} : SearchEnv).upload_result = none ∧
    search_serpapi_lens {} 5 = ([], [SearchEvent.upload]) :=
  ⟨rfl, lens_search_empty_on_upload_failure {} 5 rfl⟩

/-- C9: ranking is a pure function of the raw response and the desired count;
the `seen_domains` set is freshly allocated inside each call, so two calls on
the same input agree. -/
theorem rank_deterministic (data : LensData) (num : Nat) :
    parse_serpapi_lens_results data num = parse_serpapi_lens_results data num := rfl

/-- C10: with an empty `SERP_API_KEY`, `search_by_image` returns the empty
list at once — no upload and no provider call appears in the event trace. -/
theorem search_by_image_no_key (env : SearchEnv) (num : Nat) :
    search_by_image "" env num = ([], []) := by
  simp [search_by_image]

/-- C3: the orchestrator yields one summary per input URL at the same index,
each summary carries its input URL and depends only on that URL's own fetch
outcome (so a failure at one index leaves every other index unaffected), and
a URL whose fetch times out gets exactly its error field set. -/
theorem scrape_multiple_positional (fetch : String → FetchOutcome)
    (shot : String → Option String) (urls : List String) (b : Bool) :
    (scrape_multiple fetch shot urls b).length = urls.length ∧
    ∀ (i : Nat) (u : String), urls[i]? = some u →
      (scrape_multiple fetch shot urls b)[i]? = some (scrape_page fetch shot u b) ∧
      (scrape_page fetch shot u b).url = u ∧
      (fetch u = .timeout →
        (scrape_page fetch shot u b).error = some "Request timed out") := by
  refine ⟨by simp [scrape_multiple], ?_⟩
  intro i u hu
  refine ⟨?_, rfl, ?_⟩
  · simp [scrape_multiple, List.getElem?_map, hu]
  · intro ht
    simp [scrape_page, extract_content, ht]

/-- Witness for C3: the spec's `["a","b","c"]` example where `"b"` fails. -/
theorem scrape_multiple_positional_witness :
    (["a", "b", "c"] : List String)[1]? = some "b" ∧
    fetch_b_timeout "b" = .timeout ∧
    (scrape_multiple fetch_b_timeout (fun _ => none) ["a", "b", "c"] true).length = 3 ∧
    (scrape_multiple fetch_b_timeout (fun _ => none) ["a", "b", "c"] true)[1]? =
      some (scrape_page fetch_b_timeout (fun _ => none) "b" true) ∧
    (scrape_page fetch_b_timeout (fun _ => none) "b" true).error =
      some "Request timed out" := by
  have h := scrape_multiple_positional fetch_b_timeout (fun _ => none) ["a", "b", "c"] true
  have h2 := h.2 1 "b" rfl
  exact ⟨rfl, rfl, h.1, h2.1, h2.2.2 rfl⟩

/-- C4: `_extract_content` maps a timeout to `error = "Request timed out"`,
another request exception to `"Request error: "` plus the message's first 100
characters, and any other exception to `"Error: "` plus the first 100
characters, in every case returning a record whose textual fields keep their
empty defaults. -/
theorem extract_content_error_paths (fetch : String → FetchOutcome) (url : String) :
    (fetch url = .timeout →
      extract_content fetch url =
        { title := "", main_content := "", headings := [], paragraphs := [],
          meta_description := "", error := some "Request timed out" }) ∧
    (∀ m, fetch url = .request_error m →
      extract_content fetch url =
        { title := "", main_content := "", headings := [], paragraphs := [],
          meta_description := "", error := some ("Request error: " ++ str_take m 100) }) ∧
    (∀ m, fetch url = .other_error m →
      extract_content fetch url =
        { title := "", main_content := "", headings := [], paragraphs := [],
          meta_description := "", error := some ("Error: " ++ str_take m 100) }) := by
  refine ⟨fun h => ?_, fun m h => ?_, fun m h => ?_⟩ <;> simp [extract_content, h]

/-- Witness for C4 on the three error classes. -/
theorem extract_content_error_paths_witness :
    fetch_timeout "u" = .timeout ∧
    extract_content fetch_timeout "u" =
      { title := "", main_content := "", headings := [], paragraphs := [],
        meta_description := "", error := some "Request timed out" } ∧
    extract_content fetch_reqerr "u" = { error := some "Request error: boom" } ∧
    extract_content fetch_othererr "u" = { error := some "Error: bad" } := by
  refine ⟨rfl, ?_, ?_, ?_⟩
  · exact (extract_content_error_paths fetch_timeout "u").1 rfl
  · have h := (extract_content_error_paths fetch_reqerr "u").2.1 "boom" rfl
    rw [h]
    decide
  · have h := (extract_content_error_paths fetch_othererr "u").2.2 "bad" rfl
    rw [h]
    decide

/-- Unfolds one heading through `heading_texts`. -/
theorem heading_texts_mem (es : List HElement) (s : String) (h : s ∈ heading_texts es) :
    ∃ e ∈ es, str_strip e.text ≠ "" ∧ (str_strip e.text).length > 3 ∧
      s = str_take (str_strip e.text) 200 := by
  rcases List.mem_filterMap.mp h with ⟨e, he, heq⟩
  have heq' : (if str_strip e.text ≠ "" ∧ (str_strip e.text).length > 3 then
      some (str_take (str_strip e.text) 200) else none) = some s := heq
  by_cases hc : str_strip e.text ≠ "" ∧ (str_strip e.text).length > 3
  · rw [if_pos hc] at heq'
    exact ⟨e, he, hc.1, hc.2, (Option.some.injEq _ _ ▸ heq').symm⟩
  · rw [if_neg hc] at heq'
    exact Option.noConfusion heq'

/-- `heading_texts` keeps a subsequence of the level's truncated texts, in
document order. -/
theorem heading_texts_sublist (es : List HElement) :
    List.Sublist (heading_texts es) (es.map fun e => str_take (str_strip e.text) 200) := by
  induction es with
  | nil => simp [heading_texts]
  | cons e rest ih =>
    by_cases hc : str_strip e.text ≠ "" ∧ (str_strip e.text).length > 3
    · have hstep : heading_texts (e :: rest)
          = str_take (str_strip e.text) 200 :: heading_texts rest := by
        simp [heading_texts, List.filterMap_cons, hc]
      rw [hstep, List.map_cons]
      exact List.Sublist.cons₂ _ ih
    · have hstep : heading_texts (e :: rest) = heading_texts rest := by
        simp [heading_texts, List.filterMap_cons, hc]
      rw [hstep, List.map_cons]
      exact List.Sublist.cons _ ih

/-- The length of a Python slice `s[:n]` is at most `n`. -/
theorem str_take_length_le (s : String) (n : Nat) : (str_take s n).length ≤ n := by
  have hlen : (str_take s n).length = (s.data.take n).length := rfl
  rw [hlen]
  exact List.length_take_le n s.data

/-- C7 (amended): at most 15 headings; each is the trimmed text, truncated to
200 characters, of one of the first 10 `h1`/`h2`/`h3` elements of its level
whose trimmed text exceeds 3 characters; and within each level the kept
headings follow document order.  (The levels are emitted grouped — all `h1`s,
then `h2`s, then `h3`s — not interleaved in document order.) -/
theorem extract_headings_spec (doc : HtmlDoc) :
    (extract_headings doc).length ≤ 15 ∧
    (∀ s ∈ extract_headings doc,
      s.length ≤ 200 ∧
      ∃ lv, (lv = HTag.h1 ∨ lv = HTag.h2 ∨ lv = HTag.h3) ∧
        ∃ e ∈ (find_all doc lv).take 10,
          str_strip e.text ≠ "" ∧ (str_strip e.text).length > 3 ∧
          s = str_take (str_strip e.text) 200) ∧
    (∀ lv, List.Sublist (heading_texts ((find_all doc lv).take 10))
      ((find_all doc lv).map fun e => str_take (str_strip e.text) 200)) := by
  refine ⟨List.length_take_le 15 _, ?_, ?_⟩
  · intro s hs
    have hs' := List.mem_of_mem_take hs
    have hsrc : ∃ lv, (lv = HTag.h1 ∨ lv = HTag.h2 ∨ lv = HTag.h3) ∧
        s ∈ heading_texts ((find_all doc lv).take 10) := by
      rcases List.mem_append.mp hs' with h12 | h3
      · rcases List.mem_append.mp h12 with h1 | h2
        · exact ⟨HTag.h1, Or.inl rfl, h1⟩
        · exact ⟨HTag.h2, Or.inr (Or.inl rfl), h2⟩
      · exact ⟨HTag.h3, Or.inr (Or.inr rfl), h3⟩
    rcases hsrc with ⟨lv, hlv, hmem⟩
    rcases heading_texts_mem _ _ hmem with ⟨e, he, hne, hlen, hs200⟩
    exact ⟨hs200 ▸ str_take_length_le _ 200, lv, hlv, e, he, hne, hlen, hs200⟩
  · intro lv
    exact (heading_texts_sublist _).trans (List.Sublist.map _ (List.take_sublist 10 _))

/-- C7 counterexample: on a page whose `h2` precedes its `h1`, the extractor
emits the `h1` text first, so the output is not in document order. -/
theorem extract_headings_order_counterexample :
    extract_headings h2_first_doc = ["First one", "Second one"] ∧
    headings_in_document_order h2_first_doc = ["Second one", "First one"] ∧
    extract_headings h2_first_doc ≠ headings_in_document_order h2_first_doc := by
  decide

/-- Witness for the amended C7. -/
theorem extract_headings_spec_witness :
    "Hello World" ∈ extract_headings hello_doc ∧
    (("Hello World" : String).length ≤ 200 ∧
      ∃ lv, (lv = HTag.h1 ∨ lv = HTag.h2 ∨ lv = HTag.h3) ∧
        ∃ e ∈ (find_all hello_doc lv).take 10,
          str_strip e.text ≠ "" ∧ (str_strip e.text).length > 3 ∧
          "Hello World" = str_take (str_strip e.text) 200) :=
  ⟨by decide, (extract_headings_spec hello_doc).2.1 "Hello World" (by decide)⟩

end SamPPT
